import Mathlib

/-!
A shallow embedding of `src/mqtt-zabbix.py`: a bridge that subscribes to an
MQTT broker and forwards routed messages to a Zabbix sink.  Pure parts of the
program (the routing-table load, the per-message processing pipeline) become
Lean functions; the callback side effects (publish, subscribe, sleep, exit)
become explicit effect lists; Python exceptions become `Except` errors or
`raiseError` effects.  Python semantics that matters here is modelled
explicitly: comparing `bytes` with `str` is always `False`, tuple unpacking of
a list of the wrong length raises `ValueError`, calling a two-parameter
function with no arguments raises `TypeError`, and an uncaught exception
terminates the interpreter with exit status 1.
-/

set_option autoImplicit false

namespace MqttZabbix

/-- Application name constant (line 38 of the source). -/
def APPNAME : String := "mqtt-zabbix"

/-- Presence topic, built from the host fqdn and the application name
(line 39): `clients/<fqdn>/mqtt-zabbix/state`. -/
def PRESENCETOPIC (fqdn : String) : String :=
  "clients/" ++ fqdn ++ "/" ++ APPNAME ++ "/state"

/-- The `client_id` variable computed on line 40 from the process id. -/
def client_id (pid : Nat) : String := APPNAME ++ "_" ++ toString pid

/-- The client identifier actually handed to the broker client constructor:
line 41 passes the string literal `"client_id"` (quoted), not the variable
of the same name, so the value is a constant independent of the pid. -/
def brokerClientId (_pid : Nat) : String := "client_id"

/-- Python runtime values that the message pipeline can hold in
`msg.payload`: the network delivers `bytes`; lines 179/181 would replace it
with an `int`. -/
inductive PyVal
  | bytes (b : List Nat)
  | int (n : Int)
  | str (s : String)
  deriving DecidableEq, Repr

/-- Python `==` on these values: equal types compare structurally, and a
comparison across types (in particular `bytes == str`, as on lines 178 and
180) is `False`. -/
def pyEq : PyVal → PyVal → Bool
  | .bytes a, .bytes b => a == b
  | .int a, .int b => a == b
  | .str a, .str b => a == b
  | _, _ => false

/-- Rendering of a Python value for a log line (formatting detail only). -/
def pyShow : PyVal → String
  | .bytes b => "b" ++ toString b
  | .int n => toString n
  | .str s => s

/-- Python exceptions that the embedded fragments can raise. -/
inductive PyError
  | valueError
  | unicodeDecodeError
  | typeError
  | attributeError
  | indexError
  deriving DecidableEq, Repr

/-- Logging levels used by the program. -/
inductive LogLevel
  | debug
  | info
  | warning
  deriving DecidableEq, Repr

/-- Whether a byte is a UTF-8 continuation byte (`10xxxxxx`). -/
def isContByte (b : Nat) : Bool := 0x80 ≤ b && b < 0xC0

/-- Strict UTF-8 decoding of a byte sequence to characters, as performed by
Python's `bytes.decode("utf-8")` on line 193: rejects stray continuation
bytes, overlong encodings, surrogate code points and code points above
U+10FFFF; `none` models a `UnicodeDecodeError`. -/
def utf8DecodeChars : List Nat → Option (List Char)
  | [] => some []
  | b :: rest =>
    if b < 0x80 then
      (utf8DecodeChars rest).map (fun cs => Char.ofNat b :: cs)
    else if b < 0xC2 then
      none
    else if b < 0xE0 then
      match rest with
      | c1 :: r =>
        if isContByte c1 then
          (utf8DecodeChars r).map (fun cs =>
            Char.ofNat ((b - 0xC0) * 0x40 + (c1 - 0x80)) :: cs)
        else none
      | [] => none
    else if b < 0xF0 then
      match rest with
      | c1 :: c2 :: r =>
        let cp := (b - 0xE0) * 0x1000 + (c1 - 0x80) * 0x40 + (c2 - 0x80)
        if isContByte c1 && isContByte c2 && 0x800 ≤ cp &&
            !(0xD800 ≤ cp && cp < 0xE000) then
          (utf8DecodeChars r).map (fun cs => Char.ofNat cp :: cs)
        else none
      | _ => none
    else if b < 0xF5 then
      match rest with
      | c1 :: c2 :: c3 :: r =>
        let cp := (b - 0xF0) * 0x40000 + (c1 - 0x80) * 0x1000 +
          (c2 - 0x80) * 0x40 + (c3 - 0x80)
        if isContByte c1 && isContByte c2 && isContByte c3 &&
            0x10000 ≤ cp && cp < 0x110000 then
          (utf8DecodeChars r).map (fun cs => Char.ofNat cp :: cs)
        else none
      | _ => none
    else none

/-- Strict UTF-8 decoding to a `String` (`bytes.decode("utf-8")`). -/
def utf8Decode (l : List Nat) : Option String :=
  (utf8DecodeChars l).map fun cs => ⟨cs⟩

/-- Strips `sep` from the front of `l`, returning the remainder, or `none`
when `l` does not start with `sep`. -/
def dropSep : List Char → List Char → Option (List Char)
  | [], l => some l
  | _, [] => none
  | s :: ss, c :: cs => if c = s then dropSep ss cs else none

/-- Worker for `pySplit`, scanning left to right and splitting at every
occurrence of the separator; `fuel` bounds the recursion (one character is
consumed per step, so the input length suffices). -/
def pySplitAux (sep : List Char) : Nat → List Char → List Char →
    List (List Char)
  | 0, l, acc => [acc.reverse ++ l]
  | fuel + 1, l, acc =>
    match l with
    | [] => [acc.reverse]
    | c :: cs =>
      match dropSep sep (c :: cs) with
      | some rest => acc.reverse :: pySplitAux sep fuel rest []
      | none => pySplitAux sep fuel cs (c :: acc)

/-- Python `str.split(sep)` with a non-empty separator: splits at every
(non-overlapping, leftmost-first) occurrence of `sep`; a string with no
occurrence yields a one-element list, and adjacent/terminal separators
yield empty fields. -/
def pySplit (s sep : String) : List String :=
  (pySplitAux sep.data s.data.length s.data []).map fun cs => ⟨cs⟩

/-- One Zabbix metric, as constructed on lines 199-202: host, key, value and
the wall-clock timestamp in whole seconds taken at processing time. -/
structure Metric where
  host : String
  key : String
  value : String
  clock : Nat
  deriving DecidableEq, Repr

/-- The observable outcome of processing one message: the log lines emitted
and the metrics handed to `send_to_zabbix`. -/
structure DispatchResult where
  logs : List (LogLevel × String)
  sent : List Metric
  deriving DecidableEq, Repr

/-- Python `dict` insertion: assigning to an existing key replaces its value
in place, a new key is appended (insertion order preserved, last write
wins). -/
def dictInsert (d : List (String × String)) (k v : String) :
    List (String × String) :=
  if d.any (fun p => p.1 == k) then
    d.map (fun p => if p.1 == k then (k, v) else p)
  else d ++ [(k, v)]

/-- Python `dict` lookup / membership: keys are unique, so the first match
is the binding. -/
def dictLookup (d : List (String × String)) (k : String) : Option String :=
  (d.find? (fun p => p.1 == k)).map (fun p => p.2)

/-- The `KeyMap` class body (lines 251-258): reads csv rows and builds
`mapdict = dict((rows[0], rows[1]) for rows in reader)`.  A row with fewer
than two fields raises `IndexError`; no other validation is performed on the
values. -/
def keyMapLoad (rows : List (List String)) :
    Except PyError (List (String × String)) :=
  rows.foldlM
    (fun d row =>
      match row with
      | k :: v :: _ => Except.ok (dictInsert d k v)
      | _ => Except.error PyError.indexError)
    []

/-- `process_message` (lines 170-208).  The topic is looked up in the map;
on a hit, lines 178-181 compare the `bytes` payload against the `str`
literals `"ON"`/`"OFF"` (never equal in Python 3, so the replacement by
`1`/`0` cannot happen), the raw map value is split on every occurrence of
`::` and unpacked into exactly two names (`ValueError` otherwise), an empty
host falls back to the configured default, the payload is decoded as UTF-8
(`UnicodeDecodeError` on failure; `AttributeError` if the payload had been
replaced by an `int`, which has no `decode`), and one metric is sent.  On a
miss the message is logged at debug level and discarded. -/
def process_message (mapdict : List (String × String)) (keyhost : String)
    (now : Nat) (topic : String) (payload : List Nat) :
    Except PyError DispatchResult :=
  let log0 : LogLevel × String := (.debug, "Processing : " ++ topic)
  match dictLookup mapdict topic with
  | some rawValue =>
    let p1 : PyVal :=
      if pyEq (.bytes payload) (.str "ON") then .int 1 else .bytes payload
    let p2 : PyVal := if pyEq p1 (.str "OFF") then .int 0 else p1
    match pySplit rawValue "::" with
    | [zbxKey, zbxHostRaw] =>
      let zbxHost := if zbxHostRaw == "" then keyhost else zbxHostRaw
      let log1 : LogLevel × String :=
        (.info, "Sending " ++ topic ++ " " ++ pyShow p2 ++
          " to Zabbix to host " ++ zbxHost ++ " key " ++ zbxKey)
      match p2 with
      | .bytes b =>
        match utf8Decode b with
        | some s => .ok ⟨[log0, log1], [⟨zbxHost, zbxKey, s, now⟩]⟩
        | none => .error .unicodeDecodeError
      | _ => .error .attributeError
    | _ => .error .valueError
  | none => .ok ⟨[log0, (.debug, "Unknown: " ++ topic)], []⟩

/-- `on_message` (lines 137-149): wraps `process_message` in a
`try`/`except` whose handler prints the exception and immediately
`raise`s it again, so every exception still propagates to the caller. -/
def on_message (mapdict : List (String × String)) (keyhost : String)
    (now : Nat) (topic : String) (payload : List Nat) :
    Except PyError DispatchResult :=
  match process_message mapdict keyhost now topic payload with
  | .ok r => .ok r
  | .error e => .error e

/-- Observable side effects of the lifecycle callbacks: broker calls,
sleeps, process exit, and a raised-and-uncaught Python exception. -/
inductive Effect
  | log (lvl : LogLevel) (msg : String)
  | publish (topic payload : String) (retain : Bool)
  | subscribe (topic : String) (qos : Nat)
  | willSet (topic payload : String) (qos : Nat) (retain : Bool)
  | sleep (seconds : Nat)
  | disconnect
  | connectAttempt (host : String) (port : Nat) (keepalive : Nat)
  | sysExit (code : Nat)
  | raiseError (e : PyError)
  deriving DecidableEq, Repr

/-- `cleanup(signum, frame)` (lines 211-221), the signal handler: publish
the retained offline presence marker `"0"`, disconnect, and call
`sys.exit(signum)` — the exit status is the signal number itself. -/
def cleanup (presencetopic : String) (signum : Nat) : List Effect :=
  [ .log .info "Disconnecting from broker",
    .publish presencetopic "0" true,
    .disconnect,
    .log .info ("Exiting on signal " ++ toString signum),
    .sysExit signum ]

/-- The call `cleanup()` with no arguments, as written on lines 106, 109,
116, 119 and 122: `cleanup` is defined with two required positional
parameters `(signum, frame)`, so in Python the call itself raises
`TypeError` and none of `cleanup`'s body runs. -/
def cleanupCallNoArgs : List Effect := [.raiseError .typeError]

/-- `on_connect` (lines 82-122), keyed on the CONNACK result code: success
publishes the retained online marker `"1"` and subscribes
(`process_connection`, lines 162-167); code 3 (server unavailable) logs and
sleeps 30 seconds; every other refusal logs and attempts `cleanup()` with
no arguments, which raises `TypeError`. -/
def on_connect (presencetopic mqttTopic : String) (rc : Nat) : List Effect :=
  .log .debug ("on_connect RC: " ++ toString rc) ::
  if rc == 0 then
    [ .log .info "Connected to broker",
      .publish presencetopic "1" true,
      .log .debug "Processing connection",
      .subscribe mqttTopic 2 ]
  else if rc == 1 then
    .log .info "Connection refused - unacceptable protocol version" ::
      cleanupCallNoArgs
  else if rc == 2 then
    .log .info "Connection refused - identifier rejected" :: cleanupCallNoArgs
  else if rc == 3 then
    [ .log .info "Connection refused - server unavailable",
      .log .info "Retrying in 30 seconds",
      .sleep 30 ]
  else if rc == 4 then
    .log .info "Connection refused - bad user name or password" ::
      cleanupCallNoArgs
  else if rc == 5 then
    .log .info "Connection refused - not authorised" :: cleanupCallNoArgs
  else
    .log .warning ("Something went wrong. RC:" ++ toString rc) ::
      cleanupCallNoArgs

/-- `connect()` (lines 224-238): register the Last Will (retained `"0"` on
the presence topic) before calling the broker `connect`, and on a non-zero
result sleep 10 seconds and recurse.  The argument list holds the result
codes returned by the successive broker `connect` calls. -/
def connect (presencetopic host : String) (port : Nat) :
    List Nat → List Effect
  | [] => []
  | r :: rest =>
    [ .log .debug "Connecting to broker",
      .willSet presencetopic "0" 0 true,
      .connectAttempt host port 60 ] ++
    if r == 0 then []
    else
      .log .info ("Connection failed with error code " ++ toString r ++
          ". Retrying") ::
        .sleep 10 :: connect presencetopic host port rest

/-- The exit status, if any, produced by running a list of effects in order:
`sys.exit(n)` exits with status `n`, and an exception that reaches the top
level kills the interpreter with status 1 (the module's only top-level
handler, lines 268-272, catches `KeyboardInterrupt` alone). -/
def exitOf : List Effect → Option Nat
  | [] => none
  | .sysExit n :: _ => some n
  | .raiseError _ :: _ => some 1
  | _ :: rest => exitOf rest

/-- The phases of the connection lifecycle. -/
inductive Phase
  | Disconnected
  | Connecting
  | Connected
  | Disconnecting
  | Terminated
  deriving DecidableEq, Repr

/-- The lifecycle phase after the `on_connect` callback handles a CONNACK
with code `rc`: if the handler exits the process (directly or through an
uncaught exception) the machine is `Terminated`; otherwise code 0 means the
session is established and any other code leaves the manager still trying
to connect. -/
def phaseAfterConnack (presencetopic mqttTopic : String) (rc : Nat) : Phase :=
  match exitOf (on_connect presencetopic mqttTopic rc) with
  | some _ => .Terminated
  | none => if rc == 0 then .Connected else .Connecting

/-- Modelled from the spec: the blocking network-event loop driving the
session (`mqttc.loop_forever()` on line 269, an external broker capability)
re-issues the connect attempt when the callback for a refused CONNACK
returns without terminating the process (spec sections 4.5 and 5).  The
effects are those of `on_connect` followed, in that surviving refusal case,
by the loop's reconnect attempt. -/
def connackLoopStep (presencetopic mqttTopic host : String) (port : Nat)
    (rc : Nat) : List Effect :=
  let effs := on_connect presencetopic mqttTopic rc
  effs ++
    match exitOf effs with
    | some _ => []
    | none => if rc == 0 then [] else [.connectAttempt host port 60]

/-- Constraint every presence-topic interaction must satisfy: a `publish`
or Last-Will registration on the presence topic carries payload `"1"` or
`"0"` and is retained. -/
def presenceOkB (pt : String) : Effect → Bool
  | .publish t pl r => if t == pt then (pl == "1" || pl == "0") && r else true
  | .willSet t pl _ r => if t == pt then (pl == "1" || pl == "0") && r else true
  | _ => true

/-- Whether an effect is a broker publish. -/
def isPublish : Effect → Bool
  | .publish _ _ _ => true
  | _ => false

/-- Whether an effect is a broker connect attempt. -/
def isConnectAttempt : Effect → Bool
  | .connectAttempt _ _ _ => true
  | _ => false

end MqttZabbix

deriving instance DecidableEq for Except

namespace MqttZabbix

/-- Helper: on a routed topic whose raw map value does not split into
exactly two fields on `::`, the tuple unpacking on line 183 raises
`ValueError`. -/
theorem process_message_split_error (mapdict : List (String × String))
    (keyhost : String) (now : Nat) (topic : String) (payload : List Nat)
    (raw : String) (h1 : dictLookup mapdict topic = some raw)
    (h2 : (pySplit raw "::").length ≠ 2) :
    process_message mapdict keyhost now topic payload =
      .error .valueError := by
  unfold process_message
  rw [h1]
  rcases hs : pySplit raw "::" with _ | ⟨a, _ | ⟨b, _ | ⟨c, l⟩⟩⟩
  · simp [hs]
  · simp [hs]
  · exact absurd (by rw [hs]; rfl) h2
  · simp [hs]

/-- Claim C1 (code bug): the spec says the literal payload `"ON"` is
forwarded as value `"1"`, and lines 178-181 clearly attempt exactly that,
but in Python 3 the `bytes` payload never compares equal to the `str`
literal, so the normalization branches are dead: at a routed topic the
payload `b"ON"` (bytes 79, 78) is forwarded as the value `"ON"`, not
`"1"`. -/
theorem c1_on_payload_not_normalized :
    process_message [("t", "k::h")] "defaulthost" 0 "t" [79, 78] =
      .ok ⟨[(.debug, "Processing : t"),
            (.info, "Sending t b[79, 78] to Zabbix to host h key k")],
           [⟨"h", "k", "ON", 0⟩]⟩ ∧ "ON" ≠ "1" := by
  constructor
  · decide
  · decide

/-- Claim C2: for every inbound message whose topic is not a key of the
routing table, `process_message` (and hence `on_message`) performs zero
sink writes, emits only debug-level log lines, and returns without an
error. -/
theorem c2_unrouted_topic_no_send (mapdict : List (String × String))
    (keyhost : String) (now : Nat) (topic : String) (payload : List Nat)
    (h : dictLookup mapdict topic = none) :
    on_message mapdict keyhost now topic payload =
      .ok ⟨[(.debug, "Processing : " ++ topic),
            (.debug, "Unknown: " ++ topic)], []⟩ := by
  unfold on_message process_message
  rw [h]

/-- Witness for C2 at a concrete unrouted topic. -/
theorem c2_unrouted_topic_no_send_witness :
    dictLookup [("a", "k::h")] "x" = none ∧
    on_message [("a", "k::h")] "dh" 7 "x" [65] =
      .ok ⟨[(.debug, "Processing : " ++ "x"),
            (.debug, "Unknown: " ++ "x")], []⟩ :=
  ⟨by decide, c2_unrouted_topic_no_send [("a", "k::h")] "dh" 7 "x" [65]
    (by decide)⟩

/-- Claim C3, counterexample: `on_message` does raise to its caller.  On a
routed topic whose map value has no `::`, the tuple unpacking raises
`ValueError`; `on_message`'s handler prints it and re-raises, so the error
reaches the broker event loop. -/
theorem c3_dispatch_raises_counterexample :
    on_message [("t", "nosep")] "dh" 0 "t" [65] = .error .valueError := by
  decide

/-- Claim C3, amended: `on_message` lets message-level exceptions propagate
to its caller (it catches them only to print and immediately re-raise): a
routed message whose raw map value does not split into exactly two fields
on `::` raises `ValueError` to the broker event loop; only routing misses
and fully processed messages return without error. -/
theorem c3_amended_errors_propagate (mapdict : List (String × String))
    (keyhost : String) (now : Nat) (topic : String) (payload : List Nat)
    (raw : String) (h1 : dictLookup mapdict topic = some raw)
    (h2 : (pySplit raw "::").length ≠ 2) :
    on_message mapdict keyhost now topic payload = .error .valueError := by
  unfold on_message
  rw [process_message_split_error mapdict keyhost now topic payload raw h1 h2]

/-- Witness for the amended C3 at a concrete malformed map value. -/
theorem c3_amended_errors_propagate_witness :
    dictLookup [("t", "a::b::c")] "t" = some "a::b::c" ∧
    (pySplit "a::b::c" "::").length ≠ 2 ∧
    on_message [("t", "a::b::c")] "dh" 0 "t" [65] = .error .valueError :=
  ⟨by decide, by decide,
    c3_amended_errors_propagate [("t", "a::b::c")] "dh" 0 "t" [65] "a::b::c"
      (by decide) (by decide)⟩

/-- Claim C4, counterexample: routing-table construction does not fail on a
mapping value without the `::` separator — `KeyMap` performs no validation
beyond indexing the first two csv fields, so the load silently accepts the
value `"keyonly"`. -/
theorem c4_load_accepts_missing_separator :
    keyMapLoad [["t", "keyonly"]] = .ok [("t", "keyonly")] := by
  decide

/-- Claim C4, amended: a raw mapping value with no `::` separator is
accepted by table construction, and the failure surfaces only at
message-processing time: dispatching a message on that topic raises
`ValueError` from the tuple unpacking, so the message is never
forwarded. -/
theorem c4_amended_error_deferred_to_dispatch (t v keyhost : String)
    (now : Nat) (payload : List Nat)
    (h2 : (pySplit v "::").length ≠ 2) :
    keyMapLoad [[t, v]] = .ok [(t, v)] ∧
    on_message [(t, v)] keyhost now t payload = .error .valueError := by
  constructor
  · rfl
  · have h1 : dictLookup [(t, v)] t = some v := by simp [dictLookup]
    unfold on_message
    rw [process_message_split_error [(t, v)] keyhost now t payload v h1 h2]

/-- Witness for the amended C4 at a concrete separator-free value. -/
theorem c4_amended_error_deferred_to_dispatch_witness :
    (pySplit "keyonly" "::").length ≠ 2 ∧
    (keyMapLoad [["t", "keyonly"]] = .ok [("t", "keyonly")] ∧
      on_message [("t", "keyonly")] "dh" 0 "t" [65] = .error .valueError) :=
  ⟨by decide,
    c4_amended_error_deferred_to_dispatch "t" "keyonly" "dh" 0 [65]
      (by decide)⟩

/-- Claim C9: for every routing entry whose host field is empty, the
forwarded metric's host is the configured default `keyhost`, resolved at
processing time (the default is a parameter of `process_message`, not of
`keyMapLoad`), for every payload value that decodes as UTF-8. -/
theorem c9_empty_host_uses_default (mapdict : List (String × String))
    (keyhost : String) (now : Nat) (topic : String) (payload : List Nat)
    (raw zbxKey s : String) (h1 : dictLookup mapdict topic = some raw)
    (h2 : pySplit raw "::" = [zbxKey, ""])
    (h3 : utf8Decode payload = some s) :
    process_message mapdict keyhost now topic payload =
      .ok ⟨[(.debug, "Processing : " ++ topic),
            (.info, "Sending " ++ topic ++ " " ++ pyShow (.bytes payload) ++
              " to Zabbix to host " ++ keyhost ++ " key " ++ zbxKey)],
           [⟨keyhost, zbxKey, s, now⟩]⟩ := by
  unfold process_message
  rw [h1]
  simp [pyEq, h2, h3]

/-- Witness for C9: scenario B of the spec, entry `light.hall::` with
default host `monitor01` and payload `b"OFF"`. -/
theorem c9_empty_host_uses_default_witness :
    dictLookup [("sensors/hall/light", "light.hall::")] "sensors/hall/light" =
      some "light.hall::" ∧
    pySplit "light.hall::" "::" = ["light.hall", ""] ∧
    utf8Decode [79, 70, 70] = some "OFF" ∧
    process_message [("sensors/hall/light", "light.hall::")] "monitor01" 0
        "sensors/hall/light" [79, 70, 70] =
      .ok ⟨[(.debug, "Processing : " ++ "sensors/hall/light"),
            (.info, "Sending " ++ "sensors/hall/light" ++ " " ++
              pyShow (.bytes [79, 70, 70]) ++ " to Zabbix to host " ++
              "monitor01" ++ " key " ++ "light.hall")],
           [⟨"monitor01", "light.hall", "OFF", 0⟩]⟩ :=
  ⟨by decide, by decide, by decide,
    c9_empty_host_uses_default [("sensors/hall/light", "light.hall::")]
      "monitor01" 0 "sensors/hall/light" [79, 70, 70] "light.hall::"
      "light.hall" "OFF" (by decide) (by decide) (by decide)⟩

/-- Helper: for every refusal code other than 0 and 3, the `on_connect`
callback emits two log lines and then raises `TypeError` from the
zero-argument `cleanup()` call. -/
theorem on_connect_fatal_shape (pt mt : String) (rc : Nat) (h0 : rc ≠ 0)
    (h3 : rc ≠ 3) :
    ∃ lvl m1 m2, on_connect pt mt rc =
      [.log .debug m1, .log lvl m2, .raiseError .typeError] := by
  have e0 : (rc == 0) = false := beq_eq_false_iff_ne.mpr h0
  have e3 : (rc == 3) = false := beq_eq_false_iff_ne.mpr h3
  by_cases h1 : rc = 1
  · subst h1
    exact ⟨.info, "on_connect RC: " ++ toString 1,
      "Connection refused - unacceptable protocol version", rfl⟩
  by_cases h2 : rc = 2
  · subst h2
    exact ⟨.info, "on_connect RC: " ++ toString 2,
      "Connection refused - identifier rejected", rfl⟩
  by_cases h4 : rc = 4
  · subst h4
    exact ⟨.info, "on_connect RC: " ++ toString 4,
      "Connection refused - bad user name or password", rfl⟩
  by_cases h5 : rc = 5
  · subst h5
    exact ⟨.info, "on_connect RC: " ++ toString 5,
      "Connection refused - not authorised", rfl⟩
  have e1 : (rc == 1) = false := beq_eq_false_iff_ne.mpr h1
  have e2 : (rc == 2) = false := beq_eq_false_iff_ne.mpr h2
  have e4 : (rc == 4) = false := beq_eq_false_iff_ne.mpr h4
  have e5 : (rc == 5) = false := beq_eq_false_iff_ne.mpr h5
  refine ⟨.warning, "on_connect RC: " ++ toString rc,
    "Something went wrong. RC:" ++ toString rc, ?_⟩
  simp [on_connect, cleanupCallNoArgs, e0, e1, e2, e3, e4, e5]

/-- Helper: a fatal connect refusal terminates the interpreter with status
1 (the uncaught `TypeError`). -/
theorem exitOf_on_connect_fatal (pt mt : String) (rc : Nat) (h0 : rc ≠ 0)
    (h3 : rc ≠ 3) : exitOf (on_connect pt mt rc) = some 1 := by
  obtain ⟨lvl, m1, m2, hsh⟩ := on_connect_fatal_shape pt mt rc h0 h3
  rw [hsh]
  rfl

/-- Claim C5: on every non-transient connect refusal (codes 1, 2, 4, 5 or
any unrecognized code) the handler publishes nothing further, the event
loop makes no further connect attempt, and the lifecycle reaches
`Terminated` — here because the zero-argument `cleanup()` call raises an
uncaught `TypeError` that kills the process (with status 1) before any
further effect. -/
theorem c5_fatal_refusal_terminates (pt mt host : String) (port rc : Nat)
    (h0 : rc ≠ 0) (h3 : rc ≠ 3) :
    ((connackLoopStep pt mt host port rc).all
      (fun e => !(isPublish e) && !(isConnectAttempt e))) = true ∧
    phaseAfterConnack pt mt rc = .Terminated ∧
    exitOf (on_connect pt mt rc) = some 1 := by
  obtain ⟨lvl, m1, m2, hsh⟩ := on_connect_fatal_shape pt mt rc h0 h3
  refine ⟨?_, ?_, ?_⟩
  · unfold connackLoopStep
    rw [hsh]
    rfl
  · unfold phaseAfterConnack
    rw [hsh]
    rfl
  · rw [hsh]
    rfl

/-- Witness for C5 at the concrete refusal code 4 (bad credentials). -/
theorem c5_fatal_refusal_terminates_witness :
    (4 : Nat) ≠ 0 ∧ (4 : Nat) ≠ 3 ∧
    (((connackLoopStep "clients/h/mqtt-zabbix/state" "house/#" "broker" 1883
        4).all (fun e => !(isPublish e) && !(isConnectAttempt e))) = true ∧
      phaseAfterConnack "clients/h/mqtt-zabbix/state" "house/#" 4 =
        .Terminated ∧
      exitOf (on_connect "clients/h/mqtt-zabbix/state" "house/#" 4) =
        some 1) :=
  ⟨by decide, by decide,
    c5_fatal_refusal_terminates "clients/h/mqtt-zabbix/state" "house/#"
      "broker" 1883 4 (by decide) (by decide)⟩

/-- Claim C6: on the transient refusal (code 3, server unavailable) the
handler sleeps a fixed 30 seconds and the event loop then retries the
connect attempt; the lifecycle is back in `Connecting`, not
`Terminated`. -/
theorem c6_transient_refusal_retries (pt mt host : String) (port : Nat) :
    connackLoopStep pt mt host port 3 =
      [ .log .debug ("on_connect RC: " ++ toString 3),
        .log .info "Connection refused - server unavailable",
        .log .info "Retrying in 30 seconds",
        .sleep 30,
        .connectAttempt host port 60 ] ∧
    phaseAfterConnack pt mt 3 = .Connecting ∧
    Phase.Connecting ≠ Phase.Terminated :=
  ⟨rfl, rfl, by decide⟩

/-- Claim C7, counterexample: the clean-shutdown path does not exit with a
success status — `cleanup` calls `sys.exit(signum)`, so a SIGTERM (signal
15) shutdown exits with status 15, which is non-zero. -/
theorem c7_clean_shutdown_exit_nonzero :
    exitOf (cleanup (PRESENCETOPIC "host.example.org") 15) = some 15 ∧
    (15 : Nat) ≠ 0 :=
  ⟨rfl, by decide⟩

/-- Claim C7, amended: both termination paths exit non-zero, so the exit
status does not distinguish them as success versus failure: a clean signal
shutdown publishes the offline marker, disconnects and exits with status
equal to the signal number (15 for SIGTERM, 2 for SIGINT), and a fatal
connect refusal dies from the uncaught `TypeError` with status 1. -/
theorem c7_amended_exit_statuses (pt mt : String) (signum rc : Nat)
    (hs : signum = 15 ∨ signum = 2) (h0 : rc ≠ 0) (h3 : rc ≠ 3) :
    cleanup pt signum =
      [ .log .info "Disconnecting from broker",
        .publish pt "0" true,
        .disconnect,
        .log .info ("Exiting on signal " ++ toString signum),
        .sysExit signum ] ∧
    exitOf (cleanup pt signum) = some signum ∧ signum ≠ 0 ∧
    exitOf (on_connect pt mt rc) = some 1 ∧ (1 : Nat) ≠ 0 := by
  refine ⟨rfl, rfl, ?_, exitOf_on_connect_fatal pt mt rc h0 h3, by decide⟩
  rcases hs with h | h <;> subst h <;> decide

/-- Witness for the amended C7 at SIGTERM and refusal code 5. -/
theorem c7_amended_exit_statuses_witness :
    ((15 : Nat) = 15 ∨ (15 : Nat) = 2) ∧ (5 : Nat) ≠ 0 ∧ (5 : Nat) ≠ 3 ∧
    (cleanup "clients/h/mqtt-zabbix/state" 15 =
      [ .log .info "Disconnecting from broker",
        .publish "clients/h/mqtt-zabbix/state" "0" true,
        .disconnect,
        .log .info ("Exiting on signal " ++ toString 15),
        .sysExit 15 ] ∧
      exitOf (cleanup "clients/h/mqtt-zabbix/state" 15) = some 15 ∧
      (15 : Nat) ≠ 0 ∧
      exitOf (on_connect "clients/h/mqtt-zabbix/state" "house/#" 5) =
        some 1 ∧ (1 : Nat) ≠ 0) :=
  ⟨by decide, by decide, by decide,
    c7_amended_exit_statuses "clients/h/mqtt-zabbix/state" "house/#" 15 5
      (by decide) (by decide) (by decide)⟩

/-- Helper: every presence-topic interaction performed by `connect` (for
any sequence of broker connect results) is the retained Last-Will
registration with payload `"0"`. -/
theorem connect_presence_all (pt host : String) (port : Nat)
    (rs : List Nat) :
    (connect pt host port rs).all (presenceOkB pt) = true := by
  induction rs with
  | nil => rfl
  | cons r rest ih =>
    by_cases h : (r == 0) = true
    · simp [connect, h, presenceOkB]
    · have h' : (r == 0) = false := by simpa using h
      simp [connect, h', presenceOkB, ih]

/-- Claim C8: every publication to the presence topic
`clients/<fqdn>/mqtt-zabbix/state` — the online marker on entry to
`Connected`, the offline marker in the shutdown handler, and the Last-Will
registration, which `connect` performs before the broker connect call —
carries payload `"1"` or `"0"` and is retained. -/
theorem c8_presence_marks_retained_binary (fq mt host : String)
    (signum port r : Nat) (rest : List Nat) :
    Effect.publish (PRESENCETOPIC fq) "1" true ∈
      on_connect (PRESENCETOPIC fq) mt 0 ∧
    Effect.publish (PRESENCETOPIC fq) "0" true ∈
      cleanup (PRESENCETOPIC fq) signum ∧
    (∃ tail, connect (PRESENCETOPIC fq) host port (r :: rest) =
      Effect.log .debug "Connecting to broker" ::
        Effect.willSet (PRESENCETOPIC fq) "0" 0 true ::
          Effect.connectAttempt host port 60 :: tail) ∧
    ((on_connect (PRESENCETOPIC fq) mt 0 ++
        cleanup (PRESENCETOPIC fq) signum ++
        connect (PRESENCETOPIC fq) host port (r :: rest)).all
      (presenceOkB (PRESENCETOPIC fq))) = true := by
  refine ⟨?_, ?_, ⟨_, rfl⟩, ?_⟩
  · simp [on_connect]
  · simp [cleanup]
  · simp only [List.all_append, Bool.and_eq_true]
    refine ⟨⟨?_, ?_⟩, connect_presence_all _ _ _ _⟩
    · simp [on_connect, presenceOkB]
    · simp [cleanup, presenceOkB]

/-- Claim C10: the identifier handed to the broker client constructor is
the constant literal string `"client_id"` on every run — the same for any
two process ids, and never equal to the pid-derived `client_id` variable
that line 40 computes but line 41 fails to use. -/
theorem c10_client_identifier_constant (p q : Nat) :
    brokerClientId p = "client_id" ∧
    brokerClientId p = brokerClientId q ∧
    brokerClientId p ≠ client_id p := by
  refine ⟨rfl, rfl, ?_⟩
  intro h
  have hl : ("client_id" : String).length =
      ("mqtt-zabbix_" : String).length + (toString p).length := by
    have hc := congrArg String.length h
    simpa [brokerClientId, client_id, APPNAME, String.length_append]
      using hc
  have h9 : ("client_id" : String).length = 9 := rfl
  have h12 : ("mqtt-zabbix_" : String).length = 12 := rfl
  omega

end MqttZabbix
